import Mathlib

/-!
Shallow embedding of `src/spellcheck.py`, a command-line spell-checking
utility that forwards text to a chat-completion HTTP endpoint and prints
the corrected result.

The program is a single linear pipeline. We model one invocation as a
pure function from a `World` (command-line arguments, standard-input
content, environment variables, and the behaviour of the one network
call) to a `RunResult` (standard-output text, standard-error lines, the
list of HTTP requests issued, whether standard input and the credential
variable were consulted, and the process outcome).

Python exceptions that the script catches are modelled with `Except`;
exceptions it does not catch (`TypeError`, `AttributeError`) surface as
an `Outcome.crash`, matching the interpreter behaviour of printing a
traceback and exiting with code 1.
-/

namespace Spellcheck

/-- `API_URL` constant from line 10 of the source. -/
def API_URL : String := "https://api.openai.com/v1/chat/completions"

/-- `SYSTEM_PROMPT` constant from lines 13-16 of the source. -/
def SYSTEM_PROMPT : String :=
  "Ты профессиональный корректор. Исправь орфографию и пунктуацию, сохраняя смысл и стиль. Верни только исправленный текст без пояснений."

/-- One `{role, content}` entry of the `messages` array. -/
structure Message where
  role : String
  content : String
  deriving DecidableEq, Repr

/-- The request body dictionary produced by `build_payload`.
Temperature is modelled as a rational: the program never computes with
it, it only passes the parsed command-line value through. -/
structure Payload where
  model : String
  temperature : Rat
  messages : List Message
  deriving DecidableEq, Repr

/-- `build_payload` (lines 23-31): the Request Builder. -/
def build_payload (text : String) (model : String) (temperature : Rat) : Payload :=
  { model := model
    temperature := temperature
    messages :=
      [ { role := "system", content := SYSTEM_PROMPT }
      , { role := "user", content := text } ] }

/-- JSON values, for the parsed response body (`response.json()`). -/
inductive Json where
  | null : Json
  | bool (b : Bool) : Json
  | num (n : Int) : Json
  | str (s : String) : Json
  | arr (xs : List Json) : Json
  | obj (fields : List (String × Json)) : Json

/-- Python exceptions that subscripting / attribute access can raise.
`keyError` and `indexError` carry the text `str(exc)` would show;
for `KeyError` that is the `repr` of the missing key.  Only `keyError`
and `indexError` are caught by the script (line 90); the other two
propagate out of `main`. -/
inductive PyErr where
  | keyError (msg : String) : PyErr
  | indexError (msg : String) : PyErr
  | typeError (msg : String) : PyErr
  | attributeError (msg : String) : PyErr
  deriving DecidableEq, Repr

/-- Python `str.strip()`: drop leading and trailing whitespace
characters.  Defined structurally over the character list so that it
evaluates on concrete inputs. -/
def pyStrip (s : String) : String :=
  String.mk (((s.data.dropWhile Char.isWhitespace).reverse.dropWhile
    Char.isWhitespace).reverse)

/-- The text `str(exc)` yields for the exception, as interpolated into
the diagnostic on line 91. -/
def PyErr.msg : PyErr → String
  | .keyError m => m
  | .indexError m => m
  | .typeError m => m
  | .attributeError m => m

/-- Python subscripting `j[k]` with a string key: succeeds on a dict
containing the key, raises `KeyError` on a dict missing it, and raises
`TypeError` on every non-dict value. -/
def Json.getKey : Json → String → Except PyErr Json
  | .obj fields, k =>
    match fields.lookup k with
    | some v => .ok v
    | none => .error (.keyError ("'" ++ k ++ "'"))
  | .str _, _ => .error (.typeError "string indices must be integers")
  | .arr _, _ => .error (.typeError "list indices must be integers or slices, not str")
  | _, _ => .error (.typeError "object is not subscriptable")

/-- Python subscripting `j[i]` with a natural-number index: succeeds on
a list (or string) that is long enough, raises `IndexError` when out of
range, raises `KeyError` on a dict (JSON object keys are strings, so an
integer key is never present), and `TypeError` otherwise. -/
def Json.getIdx : Json → Nat → Except PyErr Json
  | .arr xs, i =>
    match xs.get? i with
    | some v => .ok v
    | none => .error (.indexError "list index out of range")
  | .obj _, i => .error (.keyError (toString i))
  | .str s, i =>
    match s.data.get? i with
    | some c => .ok (.str (String.mk [c]))
    | none => .error (.indexError "string index out of range")
  | _, _ => .error (.typeError "object is not subscriptable")

/-- The extraction `data["choices"][0]["message"]["content"]` from
line 43, followed by the check that `.strip()` is available (it exists
only on strings; on any other value Python raises `AttributeError`).
Returns the raw (untrimmed) content string. -/
def extract_content (data : Json) : Except PyErr String := do
  let choices ← data.getKey "choices"
  let first ← choices.getIdx 0
  let message ← first.getKey "message"
  let content ← message.getKey "content"
  match content with
  | .str s => pure s
  | _ => throw (.attributeError "object has no attribute strip")

/-- An HTTP response from the endpoint: status code, raw body text
(`response.text`), and the parsed JSON body (`response.json()`). -/
structure HttpResponse where
  status : Nat
  text : String
  body : Json

/-- What the network does for the one request of an invocation: either
an HTTP response arrives, or `requests.post` raises a
`RequestException` (DNS failure, connection error, timeout) carrying a
description of the cause. -/
inductive NetOutcome where
  | response (r : HttpResponse) : NetOutcome
  | transportFailure (msg : String) : NetOutcome

/-- The observable parts of the POST issued on line 40: URL, the two
headers, the serialized payload and the timeout argument. -/
structure HttpRequest where
  url : String
  authHeader : String
  contentType : String
  payload : Payload
  timeout : Nat
  deriving DecidableEq, Repr

/-- Errors raised inside `call_openai` that `main` catches:
`requests.HTTPError` from `raise_for_status` (line 41), any other
`requests.RequestException` from the transport, and the `KeyError` /
`IndexError` family from the extraction on line 43 (grouped here with
the uncaught `TypeError` / `AttributeError` as `pyError`). -/
inductive CallError where
  | httpError (status : Nat) (text : String) : CallError
  | requestException (msg : String) : CallError
  | pyError (e : PyErr) : CallError
  deriving DecidableEq, Repr

/-- `call_openai` (lines 34-43): builds the headers and payload, issues
the single POST, raises on non-success status (`raise_for_status`
raises for 400 ≤ status < 600), parses the body and extracts the first
choice's message content, returning it stripped.  The returned pair is
(the request that was issued, the result). -/
def call_openai (text : String) (api_key : String) (model : String)
    (temperature : Rat) (net : NetOutcome) :
    HttpRequest × Except CallError String :=
  let req : HttpRequest :=
    { url := API_URL
      authHeader := "Bearer " ++ api_key
      contentType := "application/json"
      payload := build_payload text model temperature
      timeout := 60 }
  match net with
  | .transportFailure msg => (req, .error (.requestException msg))
  | .response r =>
    if 400 ≤ r.status ∧ r.status < 600 then
      (req, .error (.httpError r.status r.text))
    else
      match extract_content r.body with
      | .ok s => (req, .ok (pyStrip s))
      | .error e => (req, .error (.pyError e))

/-- `read_stdin` (lines 19-20): read all of standard input and strip
leading/trailing whitespace. -/
def read_stdin (stdinContent : String) : String := pyStrip stdinContent

/-- Line 72, `text = args.text or read_stdin()`: Python `or` evaluates
its right operand only when the left is falsy, and `None` and the empty
string are both falsy.  Returns the resolved text together with whether
standard input was consumed. -/
def resolve_text (argText : Option String) (stdinContent : String) : String × Bool :=
  match argText with
  | some t => if t = "" then (read_stdin stdinContent, true) else (t, false)
  | none => (read_stdin stdinContent, true)

/-- The inputs of one invocation: command-line arguments (`none` for an
omitted flag), the content waiting on standard input, the two
environment variables (`none` for unset), and the network behaviour. -/
structure World where
  argText : Option String
  argModel : Option String
  argTemperature : Option Rat
  stdinContent : String
  envApiKey : Option String
  envModel : Option String
  net : NetOutcome

/-- The `--model` default (lines 11 and 58):
`os.getenv("OPENAI_MODEL", "gpt-4.1-mini")` — note an empty-string
environment value is returned as-is by `os.getenv`. -/
def World.resolvedModel (w : World) : String :=
  w.argModel.getD (w.envModel.getD "gpt-4.1-mini")

/-- The `--temperature` default, 0.0 (line 64). -/
def World.resolvedTemperature (w : World) : Rat :=
  w.argTemperature.getD 0

/-- How the process ends: a `return` from `main` (wrapped in
`SystemExit` on line 99), or an exception `main` does not catch.  The
interpreter prints a traceback for the latter and exits with code 1. -/
inductive Outcome where
  | exit (code : Nat) : Outcome
  | crash (e : PyErr) : Outcome
  deriving DecidableEq, Repr

/-- The process exit code: the returned code, or 1 when the interpreter
terminates on an uncaught exception. -/
def Outcome.processExitCode : Outcome → Nat
  | .exit code => code
  | .crash _ => 1

/-- Everything observable about one invocation: the bytes written to
standard output, the lines printed to standard error by the program
itself (a traceback printed by the interpreter on a crash is not
included), whether standard input was consumed, whether the
`OPENAI_API_KEY` variable was consulted, the HTTP requests issued, and
the outcome. -/
structure RunResult where
  stdout : String
  stderr : List String
  stdinRead : Bool
  envKeyRead : Bool
  requests : List HttpRequest
  outcome : Outcome

/-- `main` (lines 70-95): resolve the text, check it is non-empty,
fetch and check the credential, call the endpoint once, and map each
exception class to its diagnostic line and exit code 1, or print the
corrected text and return 0. -/
def main_run (w : World) : RunResult :=
  let rt := resolve_text w.argText w.stdinContent
  let text := rt.1
  let sr := rt.2
  if text = "" then
    { stdout := ""
      stderr := ["Ошибка: нет текста для проверки."]
      stdinRead := sr
      envKeyRead := false
      requests := []
      outcome := .exit 1 }
  else if w.envApiKey = none ∨ w.envApiKey = some "" then
    { stdout := ""
      stderr := ["Ошибка: переменная окружения OPENAI_API_KEY не задана."]
      stdinRead := sr
      envKeyRead := true
      requests := []
      outcome := .exit 1 }
  else
    let cr := call_openai text (w.envApiKey.getD "") w.resolvedModel
      w.resolvedTemperature w.net
    match cr.2 with
    | .ok corrected =>
      { stdout := corrected ++ "\n"
        stderr := []
        stdinRead := sr
        envKeyRead := true
        requests := [cr.1]
        outcome := .exit 0 }
    | .error (.httpError status text) =>
      { stdout := ""
        stderr := ["Ошибка HTTP: " ++ toString status ++ " " ++ text]
        stdinRead := sr
        envKeyRead := true
        requests := [cr.1]
        outcome := .exit 1 }
    | .error (.requestException msg) =>
      { stdout := ""
        stderr := ["Ошибка запроса: " ++ msg]
        stdinRead := sr
        envKeyRead := true
        requests := [cr.1]
        outcome := .exit 1 }
    | .error (.pyError (.keyError m)) =>
      { stdout := ""
        stderr := ["Ошибка ответа API: " ++ m]
        stdinRead := sr
        envKeyRead := true
        requests := [cr.1]
        outcome := .exit 1 }
    | .error (.pyError (.indexError m)) =>
      { stdout := ""
        stderr := ["Ошибка ответа API: " ++ m]
        stdinRead := sr
        envKeyRead := true
        requests := [cr.1]
        outcome := .exit 1 }
    | .error (.pyError (.typeError m)) =>
      { stdout := ""
        stderr := []
        stdinRead := sr
        envKeyRead := true
        requests := [cr.1]
        outcome := .crash (.typeError m) }
    | .error (.pyError (.attributeError m)) =>
      { stdout := ""
        stderr := []
        stdinRead := sr
        envKeyRead := true
        requests := [cr.1]
        outcome := .crash (.attributeError m) }

/-! ## Helper lemmas -/

/-- The request part of `call_openai` is the same in every branch:
lines 35-39 run before the POST is attempted. -/
def expectedRequest (text : String) (api_key : String) (model : String)
    (temperature : Rat) : HttpRequest :=
  { url := API_URL
    authHeader := "Bearer " ++ api_key
    contentType := "application/json"
    payload := build_payload text model temperature
    timeout := 60 }

theorem call_openai_fst (text api_key model : String) (temperature : Rat)
    (net : NetOutcome) :
    (call_openai text api_key model temperature net).1 =
      expectedRequest text api_key model temperature := by
  cases net with
  | transportFailure msg => rfl
  | response r =>
    simp only [call_openai, expectedRequest]
    split
    · rfl
    · split <;> rfl

/-- The request actually issued by `main_run` when it reaches the call. -/
def issuedRequest (w : World) : HttpRequest :=
  (call_openai (resolve_text w.argText w.stdinContent).1 (w.envApiKey.getD "")
    w.resolvedModel w.resolvedTemperature w.net).1

theorem main_run_stdinRead (w : World) :
    (main_run w).stdinRead = (resolve_text w.argText w.stdinContent).2 := by
  simp only [main_run]
  split
  · rfl
  · split
    · rfl
    · split <;> rfl

theorem main_run_requests (w : World) :
    (main_run w).requests = [] ∨ (main_run w).requests = [issuedRequest w] := by
  simp only [main_run, issuedRequest]
  split
  · exact Or.inl rfl
  · split
    · exact Or.inl rfl
    · split <;> exact Or.inr rfl

/-! ## Claims -/

/-- C1: for every input triple (text, model, temperature), `build_payload`
returns a request whose `model` and `temperature` fields equal its
arguments and whose `messages` are exactly two: first role "system" with
the fixed instruction constant, second role "user" with the input text.
It is a total pure function. -/
theorem C1_build_payload_spec (text model : String) (temperature : Rat) :
    (build_payload text model temperature).model = model ∧
    (build_payload text model temperature).temperature = temperature ∧
    (build_payload text model temperature).messages =
      [ { role := "system", content := SYSTEM_PROMPT }
      , { role := "user", content := text } ] :=
  ⟨rfl, rfl, rfl⟩

/-- A world where the text argument is supplied but equal to the empty
string, while standard input holds "hi". -/
def wEmptyArg : World :=
  { argText := some ""
    argModel := none
    argTemperature := none
    stdinContent := "hi"
    envApiKey := none
    envModel := none
    net := .transportFailure "unreachable" }

/-- C2 counterexample: with the text argument supplied as the empty
string and "hi" waiting on standard input, the program reads standard
input and resolves the text to "hi" — the supplied argument is not used
verbatim and standard input is read, contradicting the claim that a
supplied argument is always used verbatim (including the empty string)
with standard input never read.  Cause: `args.text or read_stdin()`
treats the empty string as falsy. -/
theorem C2_input_resolver_counterexample :
    wEmptyArg.argText = some "" ∧
    (main_run wEmptyArg).stdinRead = true ∧
    (resolve_text wEmptyArg.argText wEmptyArg.stdinContent).1 = "hi" :=
  ⟨rfl, rfl, rfl⟩

/-- C2 amended: for every invocation in which a NON-EMPTY text argument
was supplied, that argument is used verbatim (including whitespace-only
values, with no trimming) and standard input is never read; when the
argument is absent OR the empty string, standard input is read fully
and trimmed of leading/trailing whitespace. -/
theorem C2_input_resolver_amended (w : World) :
    (∀ t : String, w.argText = some t → t ≠ "" →
      (main_run w).stdinRead = false ∧
      resolve_text w.argText w.stdinContent = (t, false)) ∧
    ((w.argText = none ∨ w.argText = some "") →
      (main_run w).stdinRead = true ∧
      resolve_text w.argText w.stdinContent = (pyStrip w.stdinContent, true)) := by
  constructor
  · intro t harg ht
    have hres : resolve_text w.argText w.stdinContent = (t, false) := by
      rw [harg]
      simp only [resolve_text, if_neg ht]
    refine ⟨?_, hres⟩
    rw [main_run_stdinRead, hres]
  · intro harg
    have hres : resolve_text w.argText w.stdinContent =
        (pyStrip w.stdinContent, true) := by
      rcases harg with h | h <;> rw [h] <;> rfl
    refine ⟨?_, hres⟩
    rw [main_run_stdinRead, hres]

/-- A world with a non-empty whitespace-padded text argument and
non-empty standard input. -/
def wArgGiven : World :=
  { argText := some " padded "
    argModel := none
    argTemperature := none
    stdinContent := "ignored"
    envApiKey := none
    envModel := none
    net := .transportFailure "unreachable" }

/-- C2 amended, witness: with argument " padded " (whitespace-only
untrimmed use) the argument wins and stdin is untouched; the same
theorem also yields the stdin branch for the world with the empty-string
argument. -/
theorem C2_input_resolver_amended_witness :
    ((main_run wArgGiven).stdinRead = false ∧
      resolve_text wArgGiven.argText wArgGiven.stdinContent = (" padded ", false)) ∧
    ((main_run wEmptyArg).stdinRead = true ∧
      resolve_text wEmptyArg.argText wEmptyArg.stdinContent =
        (pyStrip wEmptyArg.stdinContent, true)) :=
  ⟨(C2_input_resolver_amended wArgGiven).1 " padded " rfl (by decide),
   (C2_input_resolver_amended wEmptyArg).2 (Or.inr rfl)⟩

/-- C4: whenever the resolved input text is empty, the driver prints the
"no text" diagnostic to the error stream, exits with code 1, and issues
no network request. -/
theorem C4_empty_text_exits (w : World)
    (h : (resolve_text w.argText w.stdinContent).1 = "") :
    (main_run w).stderr = ["Ошибка: нет текста для проверки."] ∧
    (main_run w).outcome = .exit 1 ∧
    (main_run w).requests = [] := by
  simp only [main_run]
  rw [if_pos h]
  exact ⟨rfl, rfl, rfl⟩

/-- A world with no text argument and empty standard input. -/
def wNoText : World :=
  { argText := none
    argModel := none
    argTemperature := none
    stdinContent := ""
    envApiKey := some "sk-key"
    envModel := none
    net := .transportFailure "unreachable" }

/-- C4 witness at the world with no argument and empty standard input. -/
theorem C4_empty_text_exits_witness :
    (main_run wNoText).stderr = ["Ошибка: нет текста для проверки."] ∧
    (main_run wNoText).outcome = .exit 1 ∧
    (main_run wNoText).requests = [] :=
  C4_empty_text_exits wNoText rfl

/-- C5: whenever the resolved text is non-empty but `OPENAI_API_KEY` is
unset or empty, the driver prints the "missing credential" diagnostic to
the error stream, exits with code 1, and issues no network request. -/
theorem C5_missing_credential_exits (w : World)
    (htext : (resolve_text w.argText w.stdinContent).1 ≠ "")
    (hkey : w.envApiKey = none ∨ w.envApiKey = some "") :
    (main_run w).stderr = ["Ошибка: переменная окружения OPENAI_API_KEY не задана."] ∧
    (main_run w).outcome = .exit 1 ∧
    (main_run w).requests = [] := by
  simp only [main_run]
  rw [if_neg htext, if_pos hkey]
  exact ⟨rfl, rfl, rfl⟩

/-- A world with text supplied but the credential variable unset. -/
def wNoKey : World :=
  { argText := some "hello"
    argModel := none
    argTemperature := none
    stdinContent := ""
    envApiKey := none
    envModel := none
    net := .transportFailure "unreachable" }

/-- C5 witness at a world with text "hello" and no credential. -/
theorem C5_missing_credential_exits_witness :
    (main_run wNoKey).stderr = ["Ошибка: переменная окружения OPENAI_API_KEY не задана."] ∧
    (main_run wNoKey).outcome = .exit 1 ∧
    (main_run wNoKey).requests = [] :=
  C5_missing_credential_exits wNoKey (by decide) (Or.inl rfl)

/-- C10: the empty-input check precedes the credential check — when the
resolved text is empty and `OPENAI_API_KEY` is also unset or empty, the
diagnostic is the "no text" one and the credential variable is never
consulted. -/
theorem C10_empty_text_check_first (w : World)
    (htext : (resolve_text w.argText w.stdinContent).1 = "")
    (_hkey : w.envApiKey = none ∨ w.envApiKey = some "") :
    (main_run w).stderr = ["Ошибка: нет текста для проверки."] ∧
    (main_run w).envKeyRead = false := by
  simp only [main_run]
  rw [if_pos htext]
  exact ⟨rfl, rfl⟩

/-- A world with neither text nor credential. -/
def wNoTextNoKey : World :=
  { argText := none
    argModel := none
    argTemperature := none
    stdinContent := "  "
    envApiKey := none
    envModel := none
    net := .transportFailure "unreachable" }

/-- C10 witness: whitespace-only standard input and no credential. -/
theorem C10_empty_text_check_first_witness :
    (main_run wNoTextNoKey).stderr = ["Ошибка: нет текста для проверки."] ∧
    (main_run wNoTextNoKey).envKeyRead = false :=
  C10_empty_text_check_first wNoTextNoKey (by decide) (Or.inl rfl)

/-- C3: whenever the call succeeds (a response arrives with a
non-error status and the expected body structure), the extracted
content is trimmed of leading/trailing whitespace, printed to standard
output with exactly one trailing newline, and the process exits with
code 0. -/
theorem C3_success_output (w : World) (r : HttpResponse) (s : String)
    (htext : (resolve_text w.argText w.stdinContent).1 ≠ "")
    (hkey : ¬ (w.envApiKey = none ∨ w.envApiKey = some ""))
    (hnet : w.net = .response r)
    (hstatus : ¬ (400 ≤ r.status ∧ r.status < 600))
    (hextract : extract_content r.body = .ok s) :
    (main_run w).stdout = pyStrip s ++ "\n" ∧
    (main_run w).outcome = .exit 0 := by
  have hcall : (call_openai (resolve_text w.argText w.stdinContent).1
      (w.envApiKey.getD "") w.resolvedModel w.resolvedTemperature w.net).2 =
      .ok (pyStrip s) := by
    rw [hnet]
    simp only [call_openai]
    rw [if_neg hstatus, hextract]
  simp only [main_run]
  rw [if_neg htext, if_neg hkey, hcall]
  exact ⟨rfl, rfl⟩

/-- A world where the endpoint answers 200 with a well-formed body whose
content has surrounding whitespace. -/
def wSuccess : World :=
  { argText := some "Привет как дела"
    argModel := none
    argTemperature := none
    stdinContent := ""
    envApiKey := some "sk-key"
    envModel := none
    net := .response
      { status := 200
        text := ""
        body := .obj [("choices", .arr [.obj [("message",
          .obj [("content", .str " Привет, как дела? ")])]])] } }

/-- C3 witness: the successful world prints the stripped content plus
one newline and exits 0. -/
theorem C3_success_output_witness :
    (main_run wSuccess).stdout = pyStrip " Привет, как дела? " ++ "\n" ∧
    (main_run wSuccess).outcome = .exit 0 :=
  C3_success_output wSuccess
    { status := 200
      text := ""
      body := .obj [("choices", .arr [.obj [("message",
        .obj [("content", .str " Привет, как дела? ")])]])] }
    " Привет, как дела? " (by decide) (by decide) rfl (by decide) rfl

/-- C6: on a non-success HTTP status the Completion Client fails with an
`HttpError` carrying the status code and the response body text; the
driver prints a diagnostic containing both, writes nothing to standard
output, and exits with code 1. -/
theorem C6_http_error_handling (w : World) (r : HttpResponse)
    (htext : (resolve_text w.argText w.stdinContent).1 ≠ "")
    (hkey : ¬ (w.envApiKey = none ∨ w.envApiKey = some ""))
    (hnet : w.net = .response r)
    (hstatus : 400 ≤ r.status ∧ r.status < 600) :
    (call_openai (resolve_text w.argText w.stdinContent).1 (w.envApiKey.getD "")
        w.resolvedModel w.resolvedTemperature w.net).2 =
      .error (.httpError r.status r.text) ∧
    (main_run w).stderr = ["Ошибка HTTP: " ++ toString r.status ++ " " ++ r.text] ∧
    (main_run w).stdout = "" ∧
    (main_run w).outcome = .exit 1 := by
  have hcall : (call_openai (resolve_text w.argText w.stdinContent).1
      (w.envApiKey.getD "") w.resolvedModel w.resolvedTemperature w.net).2 =
      .error (.httpError r.status r.text) := by
    rw [hnet]
    simp only [call_openai]
    rw [if_pos hstatus]
  refine ⟨hcall, ?_⟩
  simp only [main_run]
  rw [if_neg htext, if_neg hkey, hcall]
  exact ⟨rfl, rfl, rfl⟩

/-- A world where the endpoint answers 401 Unauthorized. -/
def wHttp401 : World :=
  { argText := some "hello"
    argModel := none
    argTemperature := none
    stdinContent := ""
    envApiKey := some "sk-bad"
    envModel := none
    net := .response { status := 401, text := "Unauthorized", body := .obj [] } }

/-- C6 witness: a simulated 401 yields the HTTP diagnostic with status
and body, an empty standard output, and exit code 1. -/
theorem C6_http_error_handling_witness :
    (call_openai (resolve_text wHttp401.argText wHttp401.stdinContent).1
        (wHttp401.envApiKey.getD "") wHttp401.resolvedModel
        wHttp401.resolvedTemperature wHttp401.net).2 =
      .error (.httpError 401 "Unauthorized") ∧
    (main_run wHttp401).stderr = ["Ошибка HTTP: " ++ toString 401 ++ " " ++ "Unauthorized"] ∧
    (main_run wHttp401).stdout = "" ∧
    (main_run wHttp401).outcome = .exit 1 :=
  C6_http_error_handling wHttp401
    { status := 401, text := "Unauthorized", body := .obj [] }
    (by decide) (by decide) rfl (by decide)

/-- A world whose 200 response body is a JSON array rather than the
expected object. -/
def wMalformed : World :=
  { argText := some "hi"
    argModel := none
    argTemperature := none
    stdinContent := ""
    envApiKey := some "sk-key"
    envModel := none
    net := .response { status := 200, text := "[]", body := .arr [] } }

/-- C7 counterexample: a 200 response whose body is the JSON array `[]`
lacks the expected structure, yet the program does not fail with a
caught malformed-response error: `data["choices"]` raises `TypeError`,
which the `except (KeyError, IndexError)` handler on line 90 does not
catch, so the driver prints no diagnostic of its own (the interpreter
prints a traceback) — contradicting the claim for bodies that are not
the expected JSON shape. -/
theorem C7_malformed_counterexample :
    extract_content (Json.arr []) =
      .error (.typeError "list indices must be integers or slices, not str") ∧
    (main_run wMalformed).stderr = [] ∧
    (main_run wMalformed).outcome =
      .crash (.typeError "list indices must be integers or slices, not str") :=
  ⟨rfl, rfl, rfl⟩

/-- C7 amended: for every successful HTTP response whose body fails the
expected structure through a missing dictionary key or an out-of-range
list index (missing `choices`, empty `choices` array, missing
`message`/`content` keys), the client raises a `KeyError`/`IndexError`
carrying the missing-key description, and the driver prints the
malformed-response diagnostic and exits with code 1.  (Shape mismatches
that raise `TypeError`/`AttributeError` — e.g. a non-object body or a
non-string content — are not caught and crash the interpreter.) -/
theorem C7_malformed_response_amended (w : World) (r : HttpResponse) (e : PyErr)
    (htext : (resolve_text w.argText w.stdinContent).1 ≠ "")
    (hkey : ¬ (w.envApiKey = none ∨ w.envApiKey = some ""))
    (hnet : w.net = .response r)
    (hstatus : ¬ (400 ≤ r.status ∧ r.status < 600))
    (hextract : extract_content r.body = .error e)
    (hcaught : (∃ m, e = .keyError m) ∨ (∃ m, e = .indexError m)) :
    (main_run w).stderr = ["Ошибка ответа API: " ++ e.msg] ∧
    (main_run w).stdout = "" ∧
    (main_run w).outcome = .exit 1 := by
  have hcall : (call_openai (resolve_text w.argText w.stdinContent).1
      (w.envApiKey.getD "") w.resolvedModel w.resolvedTemperature w.net).2 =
      .error (.pyError e) := by
    rw [hnet]
    simp only [call_openai]
    rw [if_neg hstatus, hextract]
  simp only [main_run]
  rw [if_neg htext, if_neg hkey, hcall]
  rcases hcaught with ⟨m, rfl⟩ | ⟨m, rfl⟩ <;> exact ⟨rfl, rfl, rfl⟩

/-- A world whose 200 response body is an object with no `choices` key. -/
def wMissingChoices : World :=
  { argText := some "hi"
    argModel := none
    argTemperature := none
    stdinContent := ""
    envApiKey := some "sk-key"
    envModel := none
    net := .response { status := 200, text := "{}", body := .obj [] } }

/-- C7 amended, witness: a body missing `choices` produces the
malformed-response diagnostic carrying the missing key and exit code 1. -/
theorem C7_malformed_response_amended_witness :
    (main_run wMissingChoices).stderr =
      ["Ошибка ответа API: " ++ (PyErr.keyError "'choices'").msg] ∧
    (main_run wMissingChoices).stdout = "" ∧
    (main_run wMissingChoices).outcome = .exit 1 :=
  C7_malformed_response_amended wMissingChoices
    { status := 200, text := "{}", body := .obj [] }
    (.keyError "'choices'") (by decide) (by decide) rfl (by decide) rfl
    (Or.inl ⟨"'choices'", rfl⟩)

/-- C8: every invocation issues at most one POST, and any request issued
goes to the fixed endpoint URL with a Bearer authorization header, JSON
content type, and a timeout bound of 60; there is never a retry. -/
theorem C8_single_request (w : World) :
    (main_run w).requests.length ≤ 1 ∧
    ∀ req ∈ (main_run w).requests,
      req.url = API_URL ∧
      req.authHeader = "Bearer " ++ w.envApiKey.getD "" ∧
      req.contentType = "application/json" ∧
      req.timeout = 60 := by
  rcases main_run_requests w with h | h <;> rw [h]
  · exact ⟨by simp, by simp⟩
  · refine ⟨by simp, ?_⟩
    intro req hreq
    simp only [List.mem_singleton] at hreq
    subst hreq
    simp only [issuedRequest]
    rw [call_openai_fst]
    exact ⟨rfl, rfl, rfl, rfl⟩

/-- C8 witness at the successful world. -/
theorem C8_single_request_witness :
    (main_run wSuccess).requests.length ≤ 1 ∧
    ∀ req ∈ (main_run wSuccess).requests,
      req.url = API_URL ∧
      req.authHeader = "Bearer " ++ wSuccess.envApiKey.getD "" ∧
      req.contentType = "application/json" ∧
      req.timeout = 60 :=
  C8_single_request wSuccess

/-- C9: no partial success — every invocation either exits with code 0
having printed the corrected text (newline-terminated) to standard
output, or terminates with process exit code 1 with an empty standard
output. -/
theorem C9_no_partial_success (w : World) :
    ((main_run w).outcome = .exit 0 ∧
      (∃ s, (main_run w).stdout = s ++ "\n")) ∨
    ((main_run w).outcome.processExitCode = 1 ∧ (main_run w).stdout = "") := by
  simp only [main_run]
  split
  · exact Or.inr ⟨rfl, rfl⟩
  · split
    · exact Or.inr ⟨rfl, rfl⟩
    · split <;>
        first
          | exact Or.inl ⟨rfl, _, rfl⟩
          | exact Or.inr ⟨rfl, rfl⟩

end Spellcheck
